import Mathlib

/-!
# minimal-secure-streams-stress: the client lifecycle orchestrator

A shallow embedding of `minimal-examples/secure-streams/minimal-secure-streams-stress/
minimal-secure-streams.c` in its default build (neither `LWS_SS_USE_SSPC` nor
`LWS_WITH_SS_DIRECT_PROTOCOL_STR` defined).

* The file-scope variables of the program are the first eleven fields of `State`.
* The calls the program makes into the library (`lws_ss_create`, `lws_ss_policy_overlay`,
  `lws_system_blob_direct_set`, `lws_sul_schedule`, `lws_sul_cancel`) are recorded in the
  remaining fields of `State`, so that theorems can speak about them.
* What the library answers (`lws_ss_create` failing, the value of `lws_ss_client_connect`, ...)
  is an input of each callback, gathered in `Ext`.
* C `int` arithmetic is `Int` arithmetic reduced into the 32-bit range (`wrap32`), `lws_usec_t`
  arithmetic is reduced into the 64-bit range (`wrap64`). C leaves signed overflow undefined;
  the reduction is what two's complement hardware computes.
* `lws_create_context` is taken by its result only: the library moves through its system states
  from the event loop, so every callback belongs to a call of `lws_service` or to
  `lws_context_destroy`.
-/

namespace LwsStress

/-! ## Machine integers -/

/-- Two's complement reduction of an integer into the range of a C `int`. -/
def wrap32 (x : Int) : Int := (x + 2147483648) % 4294967296 - 2147483648

/-- Two's complement reduction of an integer into the range of `lws_usec_t` (`int64_t`). -/
def wrap64 (x : Int) : Int :=
  (x + 9223372036854775808) % 18446744073709551616 - 9223372036854775808

/-- Conversion of a C `int` to `unsigned int`. -/
def toU32 (x : Int) : Int := x % 4294967296

/-- The values of a C `int`. -/
def isInt32 (x : Int) : Prop := -2147483648 ≤ x ∧ x ≤ 2147483647

instance (x : Int) : Decidable (isInt32 x) := by unfold isInt32; infer_instance

/-! ## Types of the library interface -/

/-- The members of `lws_ss_constate_t` that `myss_state` names; every other member is `other`
and takes the `default:` branch. -/
inductive ConState where
  | LWSSSCS_CREATING
  | LWSSSCS_CONNECTING
  | LWSSSCS_ALL_RETRIES_FAILED
  | LWSSSCS_CONNECTED
  | LWSSSCS_QOS_ACK_REMOTE
  | LWSSSCS_QOS_NACK_REMOTE
  | LWSSSCS_DISCONNECTED
  | LWSSSCS_TIMEOUT
  | LWSSSCS_USER_BASE
  | other (n : Nat)
  deriving DecidableEq

/-- The members of `lws_ss_state_return_t` that the callbacks can return. -/
inductive SSRet where
  | LWSSSSRET_OK
  | LWSSSSRET_TX_DONT_SEND
  | LWSSSSRET_DISCONNECT_ME
  | LWSSSSRET_DESTROY_ME
  deriving DecidableEq

/-- The system states that `app_system_state_nf` names; every other stage of the library's
state manager is `other` and matches no `case`. -/
inductive SysState where
  | LWS_SYSTATE_INITIALIZED
  | LWS_SYSTATE_POLICY_VALID
  | LWS_SYSTATE_REGISTERED
  | LWS_SYSTATE_OPERATIONAL
  | other (n : Nat)
  deriving DecidableEq

/-- The two policy fragments handed to `lws_ss_policy_overlay`: `portal` points
`captive_portal_detect` at google.com port 80, `no_internet` at warmcat.com port 999. -/
inductive Overlay where
  | portal
  | no_internet
  deriving DecidableEq

/-- The stream type names `create_ss` can put in `ssi.streamtype`. -/
inductive StreamType where
  | mintest_ots
  | respmap
  | mintest
  deriving DecidableEq

/-- What the library answers during one callback. -/
structure Ext where
  /-- Says `lws_ss_create` returns nonzero. -/
  ss_create_fails : Bool
  /-- Value returned by `lws_ss_client_connect`. -/
  client_connect : SSRet
  /-- Says `lws_ss_set_metadata(.., "uptag", ..)` returns nonzero. -/
  set_uptag_fails : Bool
  /-- Says `lws_ss_set_metadata(.., "ctype", ..)` returns nonzero. -/
  set_ctype_fails : Bool
  deriving DecidableEq

/-! ## Program state -/

/-- The file-scope variables of the program, followed by the record of its calls into the
library. -/
structure State where
  interrupted : Int
  bad : Int
  force_cpd_fail_portal : Int
  force_cpd_fail_no_internet : Int
  test_respmap : Int
  test_ots : Int
  budget : Int
  predicted_good : Int
  good : Int
  orig_budget : Int
  timeout_ms : Int
  /-- One entry per `create_ss` invocation, most recent first: the stream type asked for. -/
  attempts : List StreamType
  /-- The arguments of the `lws_ss_policy_overlay` calls, most recent first. -/
  overlays : List Overlay
  /-- Size of the AUTH blob at index 1 (`lws_system_blob_get_size(ab)`). -/
  auth_blob_size : Nat
  /-- The delay `sul_timeout` is scheduled with, when it is scheduled. -/
  sul_timeout : Option Int
  deriving DecidableEq

/-- The initial values of the file-scope variables (lines 42-45); nothing has been asked of the
library yet. -/
def State.init : State where
  interrupted := 0
  bad := 1
  force_cpd_fail_portal := 0
  force_cpd_fail_no_internet := 0
  test_respmap := 0
  test_ots := 0
  budget := 1
  predicted_good := 1
  good := 0
  orig_budget := 0
  timeout_ms := 8000
  attempts := []
  overlays := []
  auth_blob_size := 0
  sul_timeout := none

/-- Number of `create_ss` invocations so far. -/
def State.created (s : State) : Nat := s.attempts.length

/-- The value of `strlen(canned_root_token_payload)`. -/
def canned_root_token_payload_len : Nat := 656

/-! ## The callbacks -/

/-- The stream type `create_ss` selects,
`test_ots ? "mintest-ots" : (test_respmap ? "respmap" : "mintest")`. -/
def streamtype (s : State) : StreamType :=
  if s.test_ots ≠ 0 then StreamType.mintest_ots
  else if s.test_respmap ≠ 0 then StreamType.respmap
  else StreamType.mintest

/-- The function `create_ss`: `budget--`, then `lws_ss_create` with the selected stream type;
returns -1 when `lws_ss_create` fails and 0 otherwise. -/
def create_ss (s : State) (x : Ext) : State × Int :=
  let s1 := { s with
    budget := wrap32 (s.budget - 1)
    attempts := streamtype s :: s.attempts }
  if x.ss_create_fails then (s1, -1) else (s1, 0)

/-- The function `myss_rx`; `perf_json` is `flags & LWSSS_FLAG_PERF_JSON` being nonzero and
`eom` is `flags & LWSSS_FLAG_EOM` being nonzero. -/
def myss_rx (s : State) (perf_json eom : Bool) : State × SSRet :=
  if perf_json then (s, SSRet.LWSSSSRET_OK)
  else if eom then ({ s with bad := 0 }, SSRet.LWSSSSRET_OK)
  else (s, SSRet.LWSSSSRET_OK)

/-- The function `myss_tx`. -/
def myss_tx (s : State) : State × SSRet := (s, SSRet.LWSSSSRET_TX_DONT_SEND)

/-- The function `myss_state`. -/
def myss_state (s : State) (state : ConState) (x : Ext) : State × SSRet :=
  match state with
  | .LWSSSCS_CREATING => (s, x.client_connect)
  | .LWSSSCS_CONNECTING =>
    if x.set_uptag_fails then (s, SSRet.LWSSSSRET_DISCONNECT_ME)
    else if x.set_ctype_fails then (s, SSRet.LWSSSSRET_DISCONNECT_ME)
    else (s, SSRet.LWSSSSRET_OK)
  | .LWSSSCS_ALL_RETRIES_FAILED =>
    ({ s with interrupted := 1, bad := 2 }, SSRet.LWSSSSRET_OK)
  | .LWSSSCS_CONNECTED => (s, SSRet.LWSSSSRET_OK)
  | .LWSSSCS_QOS_ACK_REMOTE =>
    ({ s with good := wrap32 (s.good + 1) }, SSRet.LWSSSSRET_OK)
  | .LWSSSCS_QOS_NACK_REMOTE => (s, SSRet.LWSSSSRET_OK)
  | .LWSSSCS_DISCONNECTED =>
    if s.budget ≠ 0 then ((create_ss s x).1, SSRet.LWSSSSRET_DESTROY_ME)
    else ({ s with interrupted := 1 }, SSRet.LWSSSSRET_DESTROY_ME)
  | .LWSSSCS_TIMEOUT =>
    let s1 := { s with bad := 3 }
    if s1.budget ≠ 0 then ((create_ss s1 x).1, SSRet.LWSSSSRET_DESTROY_ME)
    else ({ s1 with interrupted := 1 }, SSRet.LWSSSSRET_DESTROY_ME)
  | .LWSSSCS_USER_BASE => (s, SSRet.LWSSSSRET_OK)
  | .other _ => (s, SSRet.LWSSSSRET_OK)

/-- The function `app_system_state_nf`. -/
def app_system_state_nf (s : State) (current target : SysState) (x : Ext) : State × Int :=
  match target with
  | .LWS_SYSTATE_INITIALIZED | .LWS_SYSTATE_POLICY_VALID =>
    if target ≠ current then (s, 0)
    else
      let s1 := if s.force_cpd_fail_portal ≠ 0
        then { s with overlays := Overlay.portal :: s.overlays } else s
      let s2 := if s1.force_cpd_fail_no_internet ≠ 0
        then { s1 with overlays := Overlay.no_internet :: s1.overlays } else s1
      (s2, 0)
  | .LWS_SYSTATE_REGISTERED =>
    if s.auth_blob_size ≠ 0 then (s, 0)
    else ({ s with auth_blob_size := canned_root_token_payload_len }, 0)
  | .LWS_SYSTATE_OPERATIONAL =>
    if current = SysState.LWS_SYSTATE_OPERATIONAL then ((create_ss s x).1, 0)
    else (s, 0)
  | .other _ => (s, 0)

/-- The function `sigint_handler`. -/
def sigint_handler (s : State) : State := { s with interrupted := 1 }

/-! ## Events -/

/-- One callback invocation by the library or the operating system. The callbacks that
`lws_ss_create` makes while `create_ss` is running come after `budget--` and `create_ss` writes
no variable after that call, so they are events that follow the one that ran `create_ss`. -/
inductive Event where
  | notify (current target : SysState) (x : Ext)
  | state (state : ConState) (x : Ext)
  | rx (perf_json eom : Bool)
  | tx
  | sigint
  deriving DecidableEq

/-- Runs the callback an event stands for. -/
def step (s : State) : Event → State
  | .notify current target x => (app_system_state_nf s current target x).1
  | .state st x => (myss_state s st x).1
  | .rx perf_json eom => (myss_rx s perf_json eom).1
  | .tx => (myss_tx s).1
  | .sigint => sigint_handler s

/-- Runs the callbacks of a sequence of events in order. -/
def run (s : State) (es : List Event) : State := es.foldl step s

/-- The notification that the system state has arrived at OPERATIONAL
(`current = target = LWS_SYSTATE_OPERATIONAL`). -/
def Event.isOperational : Event → Bool
  | .notify .LWS_SYSTATE_OPERATIONAL .LWS_SYSTATE_OPERATIONAL _ => true
  | _ => false

/-- The acknowledgements, `myss_state` called with `LWSSSCS_QOS_ACK_REMOTE`. -/
def Event.isAck : Event → Bool
  | .state .LWSSSCS_QOS_ACK_REMOTE _ => true
  | _ => false

/-- The events delivered to `myss_state`. -/
def Event.isState : Event → Bool
  | .state _ _ => true
  | _ => false

/-! ## The function `main` -/

/-- The command line as `main` reads it: for an option that takes a value, the `atoi` of the
text `lws_cmdline_option` returns, or `none` when the option is absent; for a switch, whether it
is present. -/
structure Cmdline where
  c : Option Int
  force_portal : Bool
  force_no_internet : Bool
  respmap : Bool
  ots : Bool
  timeout_ms : Option Int
  budget : Option Int
  pass_limit : Option Int
  expected_exit : Option Int
  deriving DecidableEq

/-- One call of `lws_service`: the callbacks made during the call, whether `sul_timeout` expires
after them (the library then calls `process_timeout`), and the value the call returns. -/
structure Round where
  events : List Event
  timed_out : Bool
  ret : Int
  deriving DecidableEq

/-- What the library does during one run of an instance. -/
structure Env where
  /-- Says `lws_create_context` returns a context. -/
  context_ok : Bool
  /-- The successive calls of `lws_service`. -/
  rounds : List Round
  /-- The callbacks made during `lws_context_destroy`. -/
  destroy_events : List Event
  deriving DecidableEq

/-- How a run of `main` ends. -/
inductive Outcome where
  /-- The `return 1` taken for a concurrency count outside 0..100. -/
  | rejected (code : Int)
  /-- The call of `exit` in `process_timeout`. -/
  | exited (code : Int)
  /-- The event loop is waiting for a further `lws_service` call to return. -/
  | running (s : State)
  /-- The `return` of the final verdict, with the variables as they are then. -/
  | verdict (code : Int) (s : State)
  deriving DecidableEq

/-- Modelled from the spec: the constant `LWS_US_PER_MS` comes from the library headers, which
are not part of the sources; the delay is in microseconds and the timeout in milliseconds. -/
def LWS_US_PER_MS : Int := 1000

/-- The delay expression of the `lws_sul_schedule` call,
`(lws_usec_t)((lws_usec_t)budget * (lws_usec_t)timeout_ms * LWS_US_PER_MS)`. -/
def watchdog_delay (budget timeout_ms : Int) : Int :=
  wrap64 (wrap64 (wrap64 (wrap64 budget * wrap64 timeout_ms) * LWS_US_PER_MS))

/-- The option handling of `main` from `--force-portal` to `--pass-limit`. -/
def startup (cl : Cmdline) : State :=
  let s := State.init
  let s := if cl.force_portal then { s with force_cpd_fail_portal := 1 } else s
  let s := if cl.force_no_internet then { s with force_cpd_fail_no_internet := 1 } else s
  let s := if cl.respmap then { s with test_respmap := 1 } else s
  let s := if cl.ots then { s with test_ots := 1 } else s
  let s := match cl.timeout_ms with
    | some v => { s with timeout_ms := toU32 v }
    | none => s
  let s := match cl.budget with
    | some v => { s with budget := v }
    | none => s
  let s := { s with predicted_good := s.budget, orig_budget := s.budget }
  match cl.pass_limit with
  | some v => { s with predicted_good := v }
  | none => s

/-- The call `lws_sul_schedule(context, 0, &sul_timeout, process_timeout, ...)`. -/
def schedule_timeout (s : State) : State :=
  { s with sul_timeout := some (watchdog_delay s.budget s.timeout_ms) }

/-- The function `process_timeout`: it ends the process with `exit(1)`. -/
def process_timeout : Outcome := Outcome.exited 1

/-- The code of `main` from the label `bail` to the end. -/
def bail (s : State) (expected_exit : Option Int) : Outcome :=
  let s1 := if s.good < s.predicted_good then { s with bad := 1 } else s
  let expected : Int := match expected_exit with
    | some v => v
    | none => 0
  if s1.bad = expected then Outcome.verdict 0 s1 else Outcome.verdict 1 s1

/-- The event loop `while (n >= 0 && !interrupted) n = lws_service(context, 0);`. It yields the
state the loop is left with, or the outcome that cuts it short. -/
def service_loop : State → Int → List Round → Outcome ⊕ State
  | s, n, [] => if n ≥ 0 ∧ s.interrupted = 0 then Sum.inl (Outcome.running s) else Sum.inr s
  | s, n, r :: rs =>
    if n ≥ 0 ∧ s.interrupted = 0 then
      if r.timed_out then Sum.inl process_timeout
      else service_loop (run s r.events) r.ret rs
    else Sum.inr s

/-- The code of `main` from the concurrency check up to the label `bail`, for one instance:
the outcome that keeps the run from the label, or the state the label is reached with. The fork
loop only chooses the names of the instance and writes no file-scope variable; it is
`fork_loop` below. -/
def reach_bail (cl : Cmdline) (env : Env) : Outcome ⊕ State :=
  let concurrent : Int := match cl.c with
    | some v => v
    | none => 1
  if concurrent < 0 ∨ concurrent > 100 then Sum.inl (Outcome.rejected 1)
  else
    let s := startup cl
    if env.context_ok then
      match service_loop (schedule_timeout s) 0 env.rounds with
      | Sum.inl o => Sum.inl o
      | Sum.inr s1 =>
        let s2 := { s1 with sul_timeout := none }
        Sum.inr (run s2 env.destroy_events)
    else Sum.inr s

/-- The function `main`, for one instance. -/
def main (cl : Cmdline) (env : Env) : Outcome :=
  match reach_bail cl env with
  | Sum.inl o => o
  | Sum.inr s => bail s cl.expected_exit

/-- The exit status of the process, when the run has ended. -/
def Outcome.code : Outcome → Option Int
  | .rejected c => some c
  | .exited c => some c
  | .running _ => none
  | .verdict c _ => some c

/-- The variables of a run that is waiting in the event loop. -/
def Outcome.waiting : Outcome → Option State
  | .running s => some s
  | _ => none

/-- The variables at the final verdict, when the run has reached it. -/
def Outcome.final : Outcome → Option State
  | .verdict _ s => some s
  | _ => none

/-! ## The fork loop -/

/-- Decimal digits of a natural number, most significant first. -/
def decimal (n : Nat) : List Char :=
  if n = 0 then ['0'] else (Nat.digits 10 n).reverse.map Nat.digitChar

/-- Modelled from the spec: the `%d` conversion of `lws_snprintf`, which is not part of the
sources; an ordinal is written in decimal, with a minus sign when negative. -/
def fmt_d (x : Int) : List Char :=
  if x < 0 then '-' :: decimal x.natAbs else decimal x.toNat

/-- Modelled from the spec: `lws_snprintf` and `lws_strncpy`, which are not part of the
sources, keep at most `size - 1` characters of the text. -/
def lws_snprintf (size : Nat) (text : List Char) : List Char := text.take (size - 1)

/-- The name the fork loop gives to the process that leaves it at iteration `n`,
`lws_snprintf(cxname, sizeof(cxname), "ctx%d", n + 1)`. -/
def cxname_of (n : Int) : List Char :=
  lws_snprintf 16 (['c', 't', 'x'] ++ fmt_d (wrap32 (n + 1)))

/-- The fork loop of `main`, followed over all the processes it creates, from the process that
is at iteration `n` with the name `cxname`. `fork_ok n` says the `fork()` call of iteration `n`
succeeds; the process that called it sees a nonzero value in both cases, takes its name and
breaks, and the child, which sees 0, goes on with iteration `n + 1`. Yields the context names of
all the instances and the number of processes created. -/
def fork_loop (concurrent : Int) (fork_ok : Int → Bool) (n : Int) (cxname : List Char) :
    List (List Char) × Nat :=
  if n < concurrent - 1 then
    if fork_ok n then
      let r := fork_loop concurrent fork_ok (n + 1) cxname
      (cxname_of n :: r.1, r.2 + 1)
    else ([cxname_of n], 0)
  else ([cxname], 0)
termination_by (concurrent - 1 - n).toNat
decreasing_by omega

/-- The context names of all the instances of a run with `-c concurrent`, and the number of
additional processes created: nothing when the count is refused. -/
def instances (concurrent : Int) (fork_ok : Int → Bool) : List (List Char) × Nat :=
  if concurrent < 0 ∨ concurrent > 100 then ([], 0)
  else fork_loop concurrent fork_ok 0 (lws_snprintf 16 ['c', 't', 'x', '0'])

/-- The log sink of an instance, `lws_snprintf(logpath, sizeof(logpath), "/tmp/%s.log", cxname)`. -/
def logpath (cxname : List Char) : List Char :=
  lws_snprintf 128 (['/', 't', 'm', 'p', '/'] ++ cxname ++ ['.', 'l', 'o', 'g'])

/-! ## Concrete runs -/

/-- The library answers of a callback during which nothing fails. -/
def ext_ok : Ext := ⟨false, SSRet.LWSSSSRET_OK, false, false⟩

/-- The notification of the arrival at OPERATIONAL. -/
def operational : Event :=
  Event.notify SysState.LWS_SYSTATE_OPERATIONAL SysState.LWS_SYSTATE_OPERATIONAL ext_ok

/-- The events of an attempt that is acknowledged, receives its whole message and ends. -/
def attempt_acked : List Event :=
  [Event.state ConState.LWSSSCS_CREATING ext_ok,
   Event.state ConState.LWSSSCS_CONNECTING ext_ok,
   Event.state ConState.LWSSSCS_CONNECTED ext_ok,
   Event.state ConState.LWSSSCS_QOS_ACK_REMOTE ext_ok,
   Event.rx false true,
   Event.state ConState.LWSSSCS_DISCONNECTED ext_ok]

/-- The events of an attempt that times out. -/
def attempt_timed_out : List Event :=
  [Event.state ConState.LWSSSCS_CREATING ext_ok,
   Event.state ConState.LWSSSCS_CONNECTING ext_ok,
   Event.state ConState.LWSSSCS_TIMEOUT ext_ok]

/-- The command line `--budget 1`. -/
def cmdline_one : Cmdline := ⟨none, false, false, false, false, none, some 1, none, none⟩

/-- A run in which the only attempt succeeds. -/
def env_one : Env :=
  ⟨true, [⟨[operational], false, 0⟩, ⟨attempt_acked, false, 0⟩], []⟩

/-- The command line `--budget 3 --pass-limit 1`. -/
def cmdline_three : Cmdline := ⟨none, false, false, false, false, none, some 3, some 1, none⟩

/-- The command line `--budget 2 --pass-limit 1`. -/
def cmdline_two : Cmdline := ⟨none, false, false, false, false, none, some 2, some 1, none⟩

/-- A run in which the first attempt succeeds and the second one times out. -/
def env_two : Env :=
  ⟨true, [⟨[operational], false, 0⟩, ⟨attempt_acked, false, 0⟩,
          ⟨attempt_timed_out, false, 0⟩], []⟩

/-- The command line `--budget 10000000 --timeout_ms 1000000000`. -/
def cmdline_long : Cmdline :=
  ⟨none, false, false, false, false, some 1000000000, some 10000000, none, none⟩

/-- A run whose context is created and whose event loop has not been served yet. -/
def env_idle : Env := ⟨true, [], []⟩

/-- The command line `--force-portal --force-no-internet`. -/
def cmdline_both_faults : Cmdline :=
  ⟨none, true, true, false, false, none, none, none, none⟩

/-- A run in which the system state goes up to OPERATIONAL during the first `lws_service`. -/
def env_startup : Env :=
  ⟨true,
   [⟨[Event.notify SysState.LWS_SYSTATE_INITIALIZED SysState.LWS_SYSTATE_INITIALIZED ext_ok,
      Event.notify SysState.LWS_SYSTATE_POLICY_VALID SysState.LWS_SYSTATE_POLICY_VALID ext_ok,
      Event.notify SysState.LWS_SYSTATE_REGISTERED SysState.LWS_SYSTATE_REGISTERED ext_ok,
      operational], false, 0⟩],
   []⟩

/-- The command line `--budget 0`. -/
def cmdline_zero : Cmdline := ⟨none, false, false, false, false, none, some 0, none, none⟩

/-- A run in which the only attempt is acknowledged twice. -/
def env_two_acks : Env :=
  ⟨true,
   [⟨[operational], false, 0⟩,
    ⟨[Event.state ConState.LWSSSCS_CREATING ext_ok,
      Event.state ConState.LWSSSCS_CONNECTING ext_ok,
      Event.state ConState.LWSSSCS_CONNECTED ext_ok,
      Event.state ConState.LWSSSCS_QOS_ACK_REMOTE ext_ok,
      Event.state ConState.LWSSSCS_QOS_ACK_REMOTE ext_ok], false, 0⟩],
   []⟩

/-- A run in which the arrival at OPERATIONAL is notified twice. -/
def env_two_arrivals : Env :=
  ⟨true, [⟨[operational], false, 0⟩, ⟨[operational], false, 0⟩], []⟩

/-- A run in which the arrival at OPERATIONAL is notified once. -/
def env_one_arrival : Env :=
  ⟨true, [⟨[operational], false, 0⟩], []⟩

/-- A run in which the first attempt ends with `LWSSSCS_ALL_RETRIES_FAILED`. -/
def env_retries_failed : Env :=
  ⟨true,
   [⟨[operational], false, 0⟩,
    ⟨[Event.state ConState.LWSSSCS_CREATING ext_ok,
      Event.state ConState.LWSSSCS_CONNECTING ext_ok,
      Event.state ConState.LWSSSCS_ALL_RETRIES_FAILED ext_ok], false, 0⟩],
   []⟩

/-- A run with a first attempt that is connected and then times out. -/
def env_terminal_once : Env :=
  ⟨true,
   [⟨[operational], false, 0⟩,
    ⟨[Event.state ConState.LWSSSCS_CREATING ext_ok,
      Event.state ConState.LWSSSCS_CONNECTING ext_ok,
      Event.state ConState.LWSSSCS_CONNECTED ext_ok,
      Event.state ConState.LWSSSCS_TIMEOUT ext_ok], false, 0⟩],
   []⟩

/-- The same run, the stream that timed out being also reported disconnected. -/
def env_terminal_twice : Env :=
  ⟨true,
   [⟨[operational], false, 0⟩,
    ⟨[Event.state ConState.LWSSSCS_CREATING ext_ok,
      Event.state ConState.LWSSSCS_CONNECTING ext_ok,
      Event.state ConState.LWSSSCS_CONNECTED ext_ok,
      Event.state ConState.LWSSSCS_TIMEOUT ext_ok,
      Event.state ConState.LWSSSCS_DISCONNECTED ext_ok], false, 0⟩],
   []⟩

/-- The library answers of a callback during which `lws_ss_create` fails. -/
def ext_create_fails : Ext := ⟨true, SSRet.LWSSSSRET_OK, false, false⟩

/-- A run in which `lws_ss_create` fails at the arrival at OPERATIONAL. -/
def env_first_create_fails : Env :=
  ⟨true,
   [⟨[Event.notify SysState.LWS_SYSTATE_OPERATIONAL SysState.LWS_SYSTATE_OPERATIONAL
        ext_create_fails], false, 0⟩],
   []⟩

/-- A run in which the first attempt ends and `lws_ss_create` fails for the next one. -/
def env_next_create_fails : Env :=
  ⟨true,
   [⟨[operational], false, 0⟩,
    ⟨[Event.state ConState.LWSSSCS_CREATING ext_ok,
      Event.state ConState.LWSSSCS_CONNECTING ext_ok,
      Event.state ConState.LWSSSCS_CONNECTED ext_ok,
      Event.state ConState.LWSSSCS_DISCONNECTED ext_create_fails], false, 0⟩],
   []⟩

/-- A run in which the arrival at OPERATIONAL is notified twice and each of the two attempts
is acknowledged once. -/
def env_two_arrivals_acked : Env :=
  ⟨true,
   [⟨[operational], false, 0⟩,
    ⟨[Event.state ConState.LWSSSCS_CREATING ext_ok,
      Event.state ConState.LWSSSCS_CONNECTING ext_ok,
      Event.state ConState.LWSSSCS_CONNECTED ext_ok,
      Event.state ConState.LWSSSCS_QOS_ACK_REMOTE ext_ok], false, 0⟩,
    ⟨[operational], false, 0⟩,
    ⟨[Event.state ConState.LWSSSCS_CREATING ext_ok,
      Event.state ConState.LWSSSCS_CONNECTING ext_ok,
      Event.state ConState.LWSSSCS_CONNECTED ext_ok,
      Event.state ConState.LWSSSCS_QOS_ACK_REMOTE ext_ok], false, 0⟩],
   []⟩

/-! ## Auxiliary facts -/

theorem wrap32_of_isInt32 {x : Int} (h : isInt32 x) : wrap32 x = x := by
  unfold isInt32 at h
  unfold wrap32
  omega

theorem run_nil (s : State) : run s [] = s := rfl

theorem run_cons (s : State) (e : Event) (es : List Event) :
    run s (e :: es) = run (step s e) es := rfl

theorem run_append (s : State) (es fs : List Event) :
    run s (es ++ fs) = run (run s es) fs := by
  simp [run, List.foldl_append]

theorem create_ss_fst (s : State) (x : Ext) :
    (create_ss s x).1 =
      { s with budget := wrap32 (s.budget - 1), attempts := streamtype s :: s.attempts } := by
  unfold create_ss
  cases x.ss_create_fails <;> rfl

theorem create_ss_budget (s : State) (x : Ext) :
    (create_ss s x).1.budget = wrap32 (s.budget - 1) := by
  rw [create_ss_fst]

theorem create_ss_created (s : State) (x : Ext) :
    (create_ss s x).1.created = s.created + 1 := by
  rw [create_ss_fst]
  rfl

/-- An event that is neither a stream state event nor the arrival at OPERATIONAL creates no
attempt and leaves the budget alone. -/
theorem step_quiet (s : State) (e : Event) (h1 : e.isState = false)
    (h2 : e.isOperational = false) :
    (step s e).budget = s.budget ∧ (step s e).created = s.created := by
  cases e with
  | notify current target x =>
    cases target <;> cases current <;>
      simp_all [step, app_system_state_nf, Event.isOperational, State.created] <;>
      (repeat (split <;> simp_all))
  | state st x => simp [Event.isState] at h1
  | rx p e =>
    simp only [step, myss_rx, State.created]
    split
    · exact ⟨rfl, rfl⟩
    · split <;> exact ⟨rfl, rfl⟩
  | tx => exact ⟨rfl, rfl⟩
  | sigint => exact ⟨rfl, rfl⟩

theorem run_quiet (es : List Event) :
    ∀ s : State, (∀ e ∈ es, e.isState = false ∧ e.isOperational = false) →
      (run s es).budget = s.budget ∧ (run s es).created = s.created := by
  induction es with
  | nil => intro s _; exact ⟨rfl, rfl⟩
  | cons e es ih =>
    intro s h
    have he := h e (List.mem_cons_self e es)
    have hs := step_quiet s e he.1 he.2
    have hr := ih (step s e) (fun e1 h1 => h e1 (List.mem_cons_of_mem e h1))
    rw [run_cons]
    exact ⟨hr.1.trans hs.1, hr.2.trans hs.2⟩

/-- While the budget is a non-negative C `int`, an event other than the arrival at OPERATIONAL
keeps it so, and every attempt it creates is paid for by one unit of budget. -/
theorem step_guarded (s : State) (e : Event) (h0 : 0 ≤ s.budget)
    (h1 : s.budget ≤ 2147483647) (h2 : e.isOperational = false) :
    0 ≤ (step s e).budget ∧ (step s e).budget ≤ s.budget ∧
      ((step s e).created : Int) + (step s e).budget = (s.created : Int) + s.budget := by
  cases e with
  | notify current target x =>
    have h := step_quiet s (Event.notify current target x) rfl h2
    rw [h.1, h.2]
    omega
  | state st x =>
    have hc : s.budget ≠ 0 →
        0 ≤ wrap32 (s.budget - 1) ∧ wrap32 (s.budget - 1) ≤ s.budget ∧
          ((s.created + 1 : Nat) : Int) + wrap32 (s.budget - 1) = (s.created : Int) + s.budget := by
      intro hne
      rw [wrap32_of_isInt32 (by unfold isInt32; omega)]
      omega
    cases st with
    | LWSSSCS_DISCONNECTED =>
      simp only [step, myss_state]
      split
      · rename_i hne
        rw [create_ss_budget, create_ss_created]
        exact hc hne
      · exact ⟨h0, le_refl _, rfl⟩
    | LWSSSCS_TIMEOUT =>
      simp only [step, myss_state]
      split
      · rename_i hne
        rw [create_ss_budget, create_ss_created]
        exact hc hne
      · exact ⟨h0, le_refl _, rfl⟩
    | LWSSSCS_CONNECTING =>
      simp only [step, myss_state]
      split
      · exact ⟨h0, le_refl _, rfl⟩
      · split <;> exact ⟨h0, le_refl _, rfl⟩
    | _ => exact ⟨h0, le_refl _, rfl⟩
  | rx p e =>
    have h := step_quiet s (Event.rx p e) rfl rfl
    rw [h.1, h.2]
    omega
  | tx => exact ⟨h0, le_refl _, rfl⟩
  | sigint => exact ⟨h0, le_refl _, rfl⟩

theorem run_guarded (es : List Event) :
    ∀ s : State, 0 ≤ s.budget → s.budget ≤ 2147483647 →
      (∀ e ∈ es, e.isOperational = false) →
      0 ≤ (run s es).budget ∧ (run s es).budget ≤ s.budget ∧
        ((run s es).created : Int) + (run s es).budget = (s.created : Int) + s.budget := by
  induction es with
  | nil => intro s h0 _ _; exact ⟨h0, le_refl _, rfl⟩
  | cons e es ih =>
    intro s h0 h1 h
    have hs := step_guarded s e h0 h1 (h e (List.mem_cons_self e es))
    have hr := ih (step s e) hs.1 (by omega) (fun e1 h1 => h e1 (List.mem_cons_of_mem e h1))
    rw [run_cons]
    omega

/-- The arrival at OPERATIONAL runs `create_ss` once. -/
theorem step_operational (s : State) (x : Ext) :
    step s (Event.notify SysState.LWS_SYSTATE_OPERATIONAL SysState.LWS_SYSTATE_OPERATIONAL x) =
      { s with budget := wrap32 (s.budget - 1), attempts := streamtype s :: s.attempts } := by
  simp [step, app_system_state_nf, create_ss_fst]

/-! ## C1: between one and `B` attempts -/

/-- C1: for a startup budget `B ≥ 1` (a C `int`), when the arrival at OPERATIONAL is notified
exactly once - after notifications and other callbacks that are not stream state events, since no
stream exists before it - and any sequence of stream state events and other callbacks follows,
whatever `lws_ss_create` answers, the number of `create_ss` invocations is at least 1 and at
most `B`. -/
theorem attempts_between_one_and_budget (s : State) (B : Int) (pre post : List Event) (x : Ext)
    (hB1 : 1 ≤ B) (hB2 : B ≤ 2147483647) (hs : s.budget = B)
    (hpre : ∀ e ∈ pre, e.isState = false ∧ e.isOperational = false)
    (hpost : ∀ e ∈ post, e.isOperational = false) :
    s.created + 1 ≤
        (run s (pre ++ Event.notify SysState.LWS_SYSTATE_OPERATIONAL
          SysState.LWS_SYSTATE_OPERATIONAL x :: post)).created ∧
      ((run s (pre ++ Event.notify SysState.LWS_SYSTATE_OPERATIONAL
          SysState.LWS_SYSTATE_OPERATIONAL x :: post)).created : Int) ≤ s.created + B := by
  rw [run_append, run_cons, step_operational]
  have hq := run_quiet pre s hpre
  generalize run s pre = t at hq ⊢
  have hw : wrap32 (t.budget - 1) = t.budget - 1 :=
    wrap32_of_isInt32 (by unfold isInt32; omega)
  have hg := run_guarded post
    { t with budget := wrap32 (t.budget - 1), attempts := streamtype t :: t.attempts }
    (by show 0 ≤ wrap32 (t.budget - 1); omega)
    (by show wrap32 (t.budget - 1) ≤ 2147483647; omega) hpost
  have hc : (State.created
      { t with budget := wrap32 (t.budget - 1), attempts := streamtype t :: t.attempts }) =
        t.created + 1 := rfl
  have hb : (State.budget
      { t with budget := wrap32 (t.budget - 1), attempts := streamtype t :: t.attempts }) =
        wrap32 (t.budget - 1) := rfl
  rw [hc, hb] at hg
  omega

/-- C1 at a budget of 3, three attempts timing out one after the other: three attempts are
created. -/
theorem attempts_between_one_and_budget_witness :
    (1 : Int) ≤ 3 ∧ (startup cmdline_three).budget = 3 ∧
      (startup cmdline_three).created + 1 ≤
        (run (startup cmdline_three)
          ([Event.notify SysState.LWS_SYSTATE_INITIALIZED SysState.LWS_SYSTATE_INITIALIZED
              ext_ok] ++
            Event.notify SysState.LWS_SYSTATE_OPERATIONAL SysState.LWS_SYSTATE_OPERATIONAL
              ext_ok ::
            (attempt_timed_out ++ attempt_timed_out ++ attempt_timed_out))).created ∧
      ((run (startup cmdline_three)
          ([Event.notify SysState.LWS_SYSTATE_INITIALIZED SysState.LWS_SYSTATE_INITIALIZED
              ext_ok] ++
            Event.notify SysState.LWS_SYSTATE_OPERATIONAL SysState.LWS_SYSTATE_OPERATIONAL
              ext_ok ::
            (attempt_timed_out ++ attempt_timed_out ++ attempt_timed_out))).created : Int) ≤
        (startup cmdline_three).created + 3 :=
  ⟨by decide, by decide,
   attempts_between_one_and_budget (startup cmdline_three) 3
      [Event.notify SysState.LWS_SYSTATE_INITIALIZED SysState.LWS_SYSTATE_INITIALIZED ext_ok]
      (attempt_timed_out ++ attempt_timed_out ++ attempt_timed_out) ext_ok
      (by decide) (by decide) (by decide) (by decide) (by decide)⟩

theorem bail_final (s : State) (e : Option Int) :
    (bail s e).final = some (if s.good < s.predicted_good then { s with bad := 1 } else s) := by
  unfold bail
  dsimp only
  by_cases hg : s.good < s.predicted_good
  · simp only [hg, if_true]
    split <;> rfl
  · simp only [hg, if_false]
    split <;> rfl

theorem bail_code (s : State) (e : Option Int) :
    (bail s e).code =
      some (if (if s.good < s.predicted_good then 1 else s.bad) = e.getD 0 then 0 else 1) := by
  have he : (match e with
      | some v => v
      | none => (0 : Int)) = e.getD 0 := by
    cases e <;> rfl
  unfold bail
  dsimp only
  rw [he]
  by_cases hg : s.good < s.predicted_good
  · simp only [hg, if_true]
    split <;> rfl
  · simp only [hg, if_false]
    split <;> rfl

theorem main_of_reach_bail (cl : Cmdline) (env : Env) (s : State)
    (h : reach_bail cl env = Sum.inr s) : main cl env = bail s cl.expected_exit := by
  simp only [main, h]

/-! ## C2: the exit code -/

/-- C2: in every run of `main` that reaches the label `bail` with the variables `s`, the bad
indicator of the verdict is 1 when `good < predicted_good` and the value the callbacks left in
`bad` otherwise; the exit code is 0 exactly when that indicator equals the `--expected-exit`
value (0 when the option is absent), and 1 exactly when it differs. -/
theorem exit_code_rule (cl : Cmdline) (env : Env) (s : State)
    (h : reach_bail cl env = Sum.inr s) :
    (main cl env).final.map State.bad =
        some (if s.good < s.predicted_good then 1 else s.bad) ∧
      ((main cl env).code = some 0 ↔
        (if s.good < s.predicted_good then 1 else s.bad) = cl.expected_exit.getD 0) ∧
      ((main cl env).code = some 1 ↔
        (if s.good < s.predicted_good then 1 else s.bad) ≠ cl.expected_exit.getD 0) := by
  rw [main_of_reach_bail cl env s h, bail_final, bail_code]
  generalize cl.expected_exit.getD 0 = e
  refine ⟨?_, ?_, ?_⟩
  · by_cases hg : s.good < s.predicted_good <;> simp [hg]
  all_goals generalize (if s.good < s.predicted_good then (1 : Int) else s.bad) = ind
  · by_cases hx : ind = e <;> simp [hx]
  · by_cases hx : ind = e <;> simp [hx]

/-- C2 on the run with one successful attempt: the label is reached with `bad = 0` and
`good = 1`, and the exit code is 0. -/
theorem exit_code_rule_witness :
    reach_bail cmdline_one env_one =
        Sum.inr { State.init with interrupted := 1, bad := 0, budget := 0, good := 1,
                                  orig_budget := 1, attempts := [StreamType.mintest] } ∧
      (main cmdline_one env_one).code = some 0 :=
  ⟨by decide,
   (exit_code_rule cmdline_one env_one
      { State.init with interrupted := 1, bad := 0, budget := 0, good := 1,
                        orig_budget := 1, attempts := [StreamType.mintest] }
      (by decide)).2.1.mpr (by decide)⟩

/-! ## C3: the verdict and the success count -/

/-- C3, refuted: with `--budget 2 --pass-limit 1`, a first attempt that succeeds and a second
one that times out, the verdict is reached with `good = 1 >= predicted_good = 1`, yet the bad
indicator is 3 and the exit code is 1. -/
theorem verdict_good_iff_refuted :
    (main cmdline_two env_two).code = some 1 ∧
      (main cmdline_two env_two).final.map State.bad = some 3 ∧
      (main cmdline_two env_two).final.map State.good = some 1 ∧
      (main cmdline_two env_two).final.map State.predicted_good = some 1 ∧
      ¬ (∀ s, (main cmdline_two env_two).final = some s →
          (s.bad = 0 ↔ s.predicted_good ≤ s.good)) := by
  refine ⟨by decide, by decide, by decide, by decide, ?_⟩
  intro h
  have h1 := h { State.init with interrupted := 1, bad := 3, budget := 0, good := 1,
                                 orig_budget := 2, predicted_good := 1,
                                 attempts := [StreamType.mintest, StreamType.mintest] }
    (by decide)
  exact absurd (h1.mpr (by decide)) (by decide)

/-- C3, amended: in every run of `main` that reaches the label `bail` with the variables `s`,
the bad indicator of the verdict is 0 if and only if `good >= predicted_good` and the callbacks
left `bad` at 0; so a verdict with indicator 0 always has `good >= predicted_good`. -/
theorem verdict_good_iff (cl : Cmdline) (env : Env) (s : State)
    (h : reach_bail cl env = Sum.inr s) :
    ((main cl env).final.map State.bad = some 0 ↔ (s.predicted_good ≤ s.good ∧ s.bad = 0)) ∧
      ((main cl env).final.map State.bad = some 0 →
        (main cl env).final.map State.predicted_good = some s.predicted_good ∧
        (main cl env).final.map State.good = some s.good ∧ s.predicted_good ≤ s.good) := by
  rw [main_of_reach_bail cl env s h, bail_final]
  by_cases hg : s.good < s.predicted_good
  · simp only [hg, if_true, Option.map_some']
    constructor
    · constructor
      · intro h1
        simp at h1
      · intro h1
        omega
    · intro h1
      simp at h1
  · simp only [hg, if_false, Option.map_some']
    constructor
    · constructor
      · intro h1
        exact ⟨by omega, by simpa using h1⟩
      · intro h1
        simp [h1.2]
    · intro _
      simp only [and_self, true_and]
      omega

/-- C3, amended, on the run with one successful attempt. -/
theorem verdict_good_iff_witness :
    reach_bail cmdline_one env_one =
        Sum.inr { State.init with interrupted := 1, bad := 0, budget := 0, good := 1,
                                  orig_budget := 1, attempts := [StreamType.mintest] } ∧
      (main cmdline_one env_one).final.map State.bad = some 0 :=
  ⟨by decide,
   (verdict_good_iff cmdline_one env_one
      { State.init with interrupted := 1, bad := 0, budget := 0, good := 1,
                        orig_budget := 1, attempts := [StreamType.mintest] }
      (by decide)).1.mpr ⟨by decide, by decide⟩⟩

/-! ## Decimal conversion -/

theorem digitChar_inj_on : ∀ a, a < 10 → ∀ b, b < 10 →
    Nat.digitChar a = Nat.digitChar b → a = b := by
  decide

theorem map_digitChar_inj : ∀ (l1 l2 : List Nat), (∀ d ∈ l1, d < 10) → (∀ d ∈ l2, d < 10) →
    l1.map Nat.digitChar = l2.map Nat.digitChar → l1 = l2 := by
  intro l1
  induction l1 with
  | nil =>
    intro l2 _ _ h
    cases l2 with
    | nil => rfl
    | cons b l2 => simp at h
  | cons a l1 ih =>
    intro l2 h1 h2 h
    cases l2 with
    | nil => simp at h
    | cons b l2 =>
      simp only [List.map_cons, List.cons.injEq] at h
      have hab := digitChar_inj_on a (h1 a (List.mem_cons_self a l1)) b
        (h2 b (List.mem_cons_self b l2)) h.1
      have hl := ih l2 (fun d hd => h1 d (List.mem_cons_of_mem a hd))
        (fun d hd => h2 d (List.mem_cons_of_mem b hd)) h.2
      rw [hab, hl]

theorem decimal_ne_zero_digit (n : Nat) (hn : n ≠ 0) : decimal n ≠ ['0'] := by
  intro h
  simp only [decimal, hn, if_false] at h
  have hlt : ∀ d ∈ (Nat.digits 10 n).reverse, d < 10 := by
    intro d hd
    exact Nat.digits_lt_base (by norm_num) (List.mem_reverse.mp hd)
  have h0 : (Nat.digits 10 n).reverse = [0] :=
    map_digitChar_inj _ [0] hlt (by simp) (by rw [h]; rfl)
  have h1 : Nat.digits 10 n = [0] := by
    have := congrArg List.reverse h0
    simpa using this
  have h2 := Nat.getLast_digit_ne_zero 10 hn
  simp [h1] at h2

theorem decimal_inj (a b : Nat) (h : decimal a = decimal b) : a = b := by
  by_cases ha : a = 0
  · by_cases hb : b = 0
    · rw [ha, hb]
    · exfalso
      apply decimal_ne_zero_digit b hb
      rw [← h, ha]
      rfl
  · by_cases hb : b = 0
    · exfalso
      apply decimal_ne_zero_digit a ha
      rw [h, hb]
      rfl
    · simp only [decimal, ha, hb, if_false] at h
      have hlt : ∀ n : Nat, ∀ d ∈ (Nat.digits 10 n).reverse, d < 10 := by
        intro n d hd
        exact Nat.digits_lt_base (by norm_num) (List.mem_reverse.mp hd)
      have h1 := map_digitChar_inj _ _ (hlt a) (hlt b) h
      have h2 : Nat.digits 10 a = Nat.digits 10 b := by
        have := congrArg List.reverse h1
        simpa using this
      exact Nat.digits_inj_iff.mp h2

theorem decimal_length (n : Nat) (h : n < 100) : (decimal n).length ≤ 2 := by
  by_cases hn : n = 0
  · rw [hn]
    decide
  · simp only [decimal, hn, if_false, List.length_map, List.length_reverse]
    by_contra hc
    have h3 : 3 ≤ (Nat.digits 10 n).length := by omega
    have hp : 10 ^ 3 ≤ 10 ^ (Nat.digits 10 n).length :=
      Nat.pow_le_pow_right (by norm_num) h3
    have hq := Nat.base_pow_length_digits_le 10 n (by norm_num) hn
    omega

/-! ## C5: the fork loop -/

/-- The name of the instance with a given ordinal. -/
theorem cxname_of_eq (j : Nat) (h : j < 99) :
    cxname_of (j : Int) = ['c', 't', 'x'] ++ decimal (j + 1) := by
  have hw : wrap32 ((j : Int) + 1) = ((j + 1 : Nat) : Int) := by
    rw [wrap32_of_isInt32 (by unfold isInt32; omega)]
    push_cast
    rfl
  have hf : fmt_d (((j + 1 : Nat) : Int)) = decimal (j + 1) := by
    unfold fmt_d
    rw [if_neg (by omega), Int.toNat_ofNat]
  have hl := decimal_length (j + 1) (by omega)
  unfold cxname_of lws_snprintf
  rw [hw, hf, List.take_of_length_le]
  simp only [List.length_append, List.length_cons, List.length_nil]
  omega

theorem fork_loop_all (c : Int) (ok : Int → Bool) (hok : ∀ i, ok i = true)
    (name : List Char) :
    ∀ (k : Nat) (n : Int), (c - 1 - n).toNat = k →
      fork_loop c ok n name =
        ((List.range k).map (fun i : Nat => cxname_of (n + i)) ++ [name], k) := by
  intro k
  induction k with
  | zero =>
    intro n hk
    rw [fork_loop, if_neg (by omega)]
    rfl
  | succ k ih =>
    intro n hk
    rw [fork_loop, if_pos (by omega), if_pos (hok n), ih (n + 1) (by omega)]
    simp only [List.range_succ_eq_map, List.map_cons, List.map_map, List.cons_append,
      Nat.cast_zero, add_zero, Prod.mk.injEq, and_true, List.cons.injEq, true_and,
      List.append_cancel_right_eq]
    apply List.map_congr_left
    intro i _
    simp only [Function.comp_apply, Nat.succ_eq_add_one, Nat.cast_add, Nat.cast_one]
    congr 1
    omega

/-- The instances of a run with `-c n`, `1 ≤ n ≤ 100`, all forks succeeding: the ordinals
1, ..., n-1 in the order the processes leave the loop, then 0 for the last child. -/
theorem instances_eq (n : Int) (ok : Int → Bool) (h1 : 1 ≤ n) (h2 : n ≤ 100)
    (hok : ∀ i, ok i = true) :
    instances n ok =
      (((List.range (n - 1).toNat).map Nat.succ ++ [0]).map
        (fun j : Nat => ['c', 't', 'x'] ++ decimal j), (n - 1).toNat) := by
  unfold instances
  rw [if_neg (by omega), fork_loop_all n ok hok _ (n - 1).toNat 0 (by omega)]
  have hA : (List.range (n - 1).toNat).map (fun i : Nat => cxname_of (0 + i)) =
      (List.range (n - 1).toNat).map
        ((fun j : Nat => ['c', 't', 'x'] ++ decimal j) ∘ Nat.succ) := by
    apply List.map_congr_left
    intro i hi
    have hi2 : i < (n - 1).toNat := List.mem_range.mp hi
    simp only [Function.comp_apply, Nat.succ_eq_add_one, zero_add]
    exact cxname_of_eq i (by omega)
  have hB : lws_snprintf 16 ['c', 't', 'x', '0'] = ['c', 't', 'x'] ++ decimal 0 := by
    decide
  rw [hA, hB, List.map_append, List.map_map, List.map_cons, List.map_nil]

theorem ordinals_nodup (k : Nat) : ((List.range k).map Nat.succ ++ [0]).Nodup := by
  rw [List.nodup_append]
  refine ⟨(List.nodup_range k).map Nat.succ_injective, List.nodup_singleton 0, ?_⟩
  intro a ha hb
  simp at ha hb
  omega

theorem logpath_eq (j : Nat) (h : j < 100) :
    logpath (['c', 't', 'x'] ++ decimal j) =
      ['/', 't', 'm', 'p', '/'] ++ (['c', 't', 'x'] ++ decimal j) ++ ['.', 'l', 'o', 'g'] := by
  have hl := decimal_length j h
  unfold logpath lws_snprintf
  rw [List.take_of_length_le]
  simp only [List.length_append, List.length_cons, List.length_nil]
  omega

/-- C5: for a concurrency count `n` with `1 ≤ n ≤ 100` and `fork` always succeeding, the fork
loop creates exactly `n - 1` additional processes, `n` instances run in total, their context
names are pairwise distinct and so are their log sink paths. -/
theorem fan_out (n : Int) (ok : Int → Bool) (h1 : 1 ≤ n) (h2 : n ≤ 100)
    (hok : ∀ i, ok i = true) :
    ((instances n ok).2 : Int) = n - 1 ∧ ((instances n ok).1.length : Int) = n ∧
      (instances n ok).1.Nodup ∧ ((instances n ok).1.map logpath).Nodup := by
  rw [instances_eq n ok h1 h2 hok]
  have hname : ∀ a b : Nat, (['c', 't', 'x'] ++ decimal a) = (['c', 't', 'x'] ++ decimal b) →
      a = b := by
    intro a b h
    exact decimal_inj a b (List.append_cancel_left h)
  have hmem : ∀ j ∈ (List.range (n - 1).toNat).map Nat.succ ++ [0], j < 100 := by
    intro j hj
    simp only [List.mem_append, List.mem_map, List.mem_range, List.mem_singleton] at hj
    rcases hj with ⟨i, hi, rfl⟩ | rfl
    · simp only [Nat.succ_eq_add_one]
      omega
    · omega
  refine ⟨?_, ?_, ?_, ?_⟩
  · simp only
    omega
  · simp only [List.length_map, List.length_append, List.length_range, List.length_singleton]
    omega
  · exact (ordinals_nodup _).map_on (fun a _ b _ h => hname a b h)
  · simp only [List.map_map]
    apply (ordinals_nodup _).map_on
    intro a ha b hb h
    simp only [Function.comp_apply] at h
    rw [logpath_eq a (hmem a ha), logpath_eq b (hmem b hb)] at h
    exact hname a b (List.append_cancel_left (List.append_cancel_right h))

/-- C5 at `n = 4`: three additional processes. -/
theorem fan_out_witness :
    (1 : Int) ≤ 4 ∧ (4 : Int) ≤ 100 ∧
      ((instances 4 (fun _ => true)).2 : Int) = 4 - 1 ∧
      ((instances 4 (fun _ => true)).1.length : Int) = 4 ∧
      (instances 4 (fun _ => true)).1.Nodup ∧
      ((instances 4 (fun _ => true)).1.map logpath).Nodup :=
  ⟨by decide, by decide,
   fan_out 4 (fun _ => true) (by decide) (by decide) (fun _ => rfl)⟩

/-! ## C6: the watchdog delay -/

theorem startup_fields (cl : Cmdline) :
    (startup cl).interrupted = 0 ∧ (startup cl).bad = 1 ∧ (startup cl).good = 0 ∧
      (startup cl).attempts = [] ∧ (startup cl).overlays = [] ∧
      (startup cl).budget = cl.budget.getD 1 ∧ (startup cl).orig_budget = cl.budget.getD 1 ∧
      (startup cl).timeout_ms = (cl.timeout_ms.map toU32).getD 8000 ∧
      (startup cl).predicted_good = cl.pass_limit.getD (cl.budget.getD 1) := by
  rcases cl with ⟨c, fp, fni, rm, ots, tm, b, pl, ee⟩
  cases fp <;> cases fni <;> cases rm <;> cases ots <;> cases tm <;> cases b <;> cases pl <;>
    exact ⟨rfl, rfl, rfl, rfl, rfl, rfl, rfl, rfl, rfl⟩

theorem wrap64_wrap64 (x : Int) : wrap64 (wrap64 x) = wrap64 x := by
  unfold wrap64
  omega

theorem wrap64_of_range {x : Int} (h1 : -9223372036854775808 ≤ x)
    (h2 : x ≤ 9223372036854775807) : wrap64 x = x := by
  unfold wrap64
  omega

theorem watchdog_delay_eq (B T : Int) (hB : isInt32 B) (hT1 : 0 ≤ T) (hT2 : T < 4294967296) :
    watchdog_delay B T = wrap64 (B * T * 1000) := by
  unfold isInt32 at hB
  have hl : -9223372036854775808 ≤ B * T := by nlinarith [mul_nonneg (by omega : 0 ≤ B + 2147483648) hT1]
  have hu : B * T ≤ 9223372036854775807 := by
    nlinarith [mul_nonneg (by omega : 0 ≤ 2147483647 - B) hT1]
  unfold watchdog_delay LWS_US_PER_MS
  rw [wrap64_wrap64, wrap64_of_range (x := B) (by omega) (by omega),
    wrap64_of_range (x := T) (by omega) (by omega), wrap64_of_range hl hu]

theorem main_idle (cl : Cmdline) (hc : ¬ (cl.c.getD 1 < 0 ∨ cl.c.getD 1 > 100)) :
    main cl env_idle = Outcome.running (schedule_timeout (startup cl)) := by
  have he : (match cl.c with
      | some v => v
      | none => (1 : Int)) = cl.c.getD 1 := by
    cases cl.c <;> rfl
  have hi : (schedule_timeout (startup cl)).interrupted = 0 := (startup_fields cl).1
  simp only [main, reach_bail, he, if_neg hc, env_idle, if_true, service_loop, hi, ge_iff_le,
    le_refl, and_self]

/-- C6, refuted: with `--budget 10000000 --timeout_ms 1000000000` the product
`10000000 * 1000000000 * 1000` is 10^19, above the largest `lws_usec_t`; the delay handed to
`lws_sul_schedule` is the wrapped value -8446744073709551616. -/
theorem watchdog_delay_refuted :
    (main cmdline_long env_idle).waiting.map State.orig_budget = some 10000000 ∧
      (main cmdline_long env_idle).waiting.map State.timeout_ms = some 1000000000 ∧
      (main cmdline_long env_idle).waiting.bind State.sul_timeout =
        some (-8446744073709551616) ∧
      (-8446744073709551616 : Int) ≠ 10000000 * 1000000000 * 1000 := by
  decide

/-- C6, amended: for a budget `B` that is a C `int` and a timeout `T` that is an
`unsigned int` (their defaults are 1 and 8000), `main` enters the event loop with
`orig_budget = B` and with `sul_timeout` scheduled at `B * T * 1000` reduced into the range of
`lws_usec_t`; the delay is exactly `B * T * 1000` whenever that product lies in the range. -/
theorem watchdog_delay_exact (cl : Cmdline)
    (hc : ¬ (cl.c.getD 1 < 0 ∨ cl.c.getD 1 > 100)) (hB : isInt32 (cl.budget.getD 1)) :
    (main cl env_idle).waiting.map State.orig_budget = some (cl.budget.getD 1) ∧
      (main cl env_idle).waiting.bind State.sul_timeout =
        some (wrap64 (cl.budget.getD 1 * (cl.timeout_ms.map toU32).getD 8000 * 1000)) ∧
      (-9223372036854775808 ≤ cl.budget.getD 1 * (cl.timeout_ms.map toU32).getD 8000 * 1000 →
        cl.budget.getD 1 * (cl.timeout_ms.map toU32).getD 8000 * 1000 ≤ 9223372036854775807 →
        (main cl env_idle).waiting.bind State.sul_timeout =
          some (cl.budget.getD 1 * (cl.timeout_ms.map toU32).getD 8000 * 1000)) := by
  have hf := startup_fields cl
  have hT : 0 ≤ (cl.timeout_ms.map toU32).getD 8000 ∧
      (cl.timeout_ms.map toU32).getD 8000 < 4294967296 := by
    cases cl.timeout_ms with
    | none => exact ⟨by decide, by decide⟩
    | some v =>
      simp only [Option.map_some', Option.getD_some, toU32]
      omega
  have hd : (main cl env_idle).waiting.bind State.sul_timeout =
      some (wrap64 (cl.budget.getD 1 * (cl.timeout_ms.map toU32).getD 8000 * 1000)) := by
    rw [main_idle cl hc]
    simp only [Outcome.waiting, Option.some_bind, schedule_timeout]
    rw [hf.2.2.2.2.2.1, hf.2.2.2.2.2.2.2.1, watchdog_delay_eq _ _ hB hT.1 hT.2]
  refine ⟨?_, hd, ?_⟩
  · rw [main_idle cl hc]
    simp only [Outcome.waiting, Option.map_some', schedule_timeout]
    rw [hf.2.2.2.2.2.2.1]
  · intro h1 h2
    rw [hd, wrap64_of_range h1 h2]

/-- C6, amended, at the default budget 1 and timeout 8000: the delay is 8000000. -/
theorem watchdog_delay_exact_witness :
    isInt32 (cmdline_one.budget.getD 1) ∧
      (main cmdline_one env_idle).waiting.bind State.sul_timeout = some 8000000 :=
  ⟨by decide,
   (watchdog_delay_exact cmdline_one (by decide) (by decide)).2.2 (by decide) (by decide)⟩

/-! ## C4: both fault flags -/

/-- C4, on the code: with `--force-portal --force-no-internet` the run is not refused. Both
flags are set, both overlays are applied at INITIALIZED and again at POLICY_VALID, and the first
attempt is created on the arrival at OPERATIONAL; the process is then waiting in its event
loop. -/
theorem both_fault_flags_accepted :
    (startup cmdline_both_faults).force_cpd_fail_portal = 1 ∧
      (startup cmdline_both_faults).force_cpd_fail_no_internet = 1 ∧
      (main cmdline_both_faults env_startup).code = none ∧
      (main cmdline_both_faults env_startup).waiting.map State.overlays =
        some [Overlay.no_internet, Overlay.portal, Overlay.no_internet, Overlay.portal] ∧
      (main cmdline_both_faults env_startup).waiting.map State.created = some 1 := by
  decide

/-! ## C7: the success count and the budget -/

/-- C7, refuted: with `--budget 1`, an attempt that is acknowledged twice leaves `good = 2`
above `orig_budget = 1`; so do two arrivals at OPERATIONAL whose two attempts are acknowledged
once each. -/
theorem good_le_orig_budget_refuted :
    (main cmdline_one env_two_acks).waiting.map State.good = some 2 ∧
      (main cmdline_one env_two_acks).waiting.map State.orig_budget = some 1 ∧
      (main cmdline_one env_two_acks).waiting.map State.created = some 1 ∧
      (main cmdline_one env_two_arrivals_acked).waiting.map State.good = some 2 ∧
      (main cmdline_one env_two_arrivals_acked).waiting.map State.orig_budget = some 1 ∧
      (main cmdline_one env_two_arrivals_acked).waiting.map State.created = some 2 := by
  decide

/-- A notification other than the arrival at OPERATIONAL writes nothing but the record of the
overlays and the AUTH blob. -/
theorem notify_frame (s : State) (current target : SysState) (x : Ext)
    (h : (Event.notify current target x).isOperational = false) :
    ∃ o a, step s (Event.notify current target x) =
      { s with overlays := o, auth_blob_size := a } := by
  have hov : ∃ o a,
      (if (if s.force_cpd_fail_portal ≠ 0
            then { s with overlays := Overlay.portal :: s.overlays }
            else s).force_cpd_fail_no_internet ≠ 0
        then { (if s.force_cpd_fail_portal ≠ 0
                  then { s with overlays := Overlay.portal :: s.overlays } else s) with
               overlays := Overlay.no_internet ::
                 (if s.force_cpd_fail_portal ≠ 0
                    then { s with overlays := Overlay.portal :: s.overlays }
                    else s).overlays }
        else (if s.force_cpd_fail_portal ≠ 0
                then { s with overlays := Overlay.portal :: s.overlays } else s)) =
      { s with overlays := o, auth_blob_size := a } := by
    by_cases h1 : s.force_cpd_fail_portal ≠ 0 <;>
      by_cases h2 : s.force_cpd_fail_no_internet ≠ 0 <;>
      simp only [if_pos h1, if_neg h1, if_pos h2, if_neg h2] <;>
      exact ⟨_, _, rfl⟩
  have hreg : ∃ o a,
      (if s.auth_blob_size ≠ 0 then (s, (0 : Int))
        else ({ s with auth_blob_size := canned_root_token_payload_len }, 0)).1 =
      { s with overlays := o, auth_blob_size := a } := by
    by_cases h1 : s.auth_blob_size ≠ 0 <;>
      simp only [if_pos h1, if_neg h1] <;>
      exact ⟨_, _, rfl⟩
  cases target <;> cases current <;>
    first
      | exact ⟨_, _, rfl⟩
      | exact hov
      | exact hreg
      | (simp [Event.isOperational] at h)

/-- What a callback does to `good` and `orig_budget`: an acknowledgement adds one to `good`,
nothing else writes either. -/
theorem step_good (s : State) (e : Event) :
    (step s e).good = (if e.isAck then wrap32 (s.good + 1) else s.good) ∧
      (step s e).orig_budget = s.orig_budget := by
  cases e with
  | notify current target x =>
    by_cases hop : (Event.notify current target x).isOperational = true
    · cases target <;> cases current <;> simp [Event.isOperational] at hop
      rw [step_operational]
      exact ⟨rfl, rfl⟩
    · obtain ⟨o, a, h⟩ := notify_frame s current target x (by simpa using hop)
      rw [h]
      exact ⟨rfl, rfl⟩
  | state st x =>
    cases st with
    | LWSSSCS_DISCONNECTED =>
      simp only [step, myss_state]
      split
      · rw [create_ss_fst]
        exact ⟨rfl, rfl⟩
      · exact ⟨rfl, rfl⟩
    | LWSSSCS_TIMEOUT =>
      simp only [step, myss_state]
      split
      · rw [create_ss_fst]
        exact ⟨rfl, rfl⟩
      · exact ⟨rfl, rfl⟩
    | LWSSSCS_CONNECTING =>
      simp only [step, myss_state]
      split
      · exact ⟨rfl, rfl⟩
      · split <;> exact ⟨rfl, rfl⟩
    | _ => exact ⟨rfl, rfl⟩
  | rx p e =>
    simp only [step, myss_rx, Event.isAck]
    split
    · exact ⟨rfl, rfl⟩
    · split <;> exact ⟨rfl, rfl⟩
  | tx => exact ⟨rfl, rfl⟩
  | sigint => exact ⟨rfl, rfl⟩

theorem run_good (es : List Event) :
    ∀ s : State, 0 ≤ s.good → s.good + (es.countP Event.isAck : Int) ≤ 2147483647 →
      (run s es).good = s.good + (es.countP Event.isAck : Int) ∧
        (run s es).orig_budget = s.orig_budget := by
  induction es with
  | nil =>
    intro s _ _
    simp [run_nil]
  | cons e es ih =>
    intro s h0 h1
    have hs := step_good s e
    rw [run_cons]
    by_cases he : e.isAck = true
    · rw [List.countP_cons_of_pos _ _ he] at h1 ⊢
      rw [if_pos he, wrap32_of_isInt32 (by unfold isInt32; push_cast at h1; omega)] at hs
      have hr := ih (step s e) (by omega) (by push_cast at h1 ⊢; omega)
      rw [hr.1, hr.2, hs.1, hs.2]
      push_cast
      exact ⟨by omega, rfl⟩
    · rw [List.countP_cons_of_neg _ _ he] at h1 ⊢
      rw [if_neg he] at hs
      have hr := ih (step s e) (by omega) (by omega)
      rw [hr.1, hr.2, hs.1, hs.2]
      exact ⟨rfl, rfl⟩

/-- After a single arrival at OPERATIONAL that no stream event precedes, at most as many
attempts have been created as the budget allowed. -/
theorem created_le_after_arrival (s : State) (pre post : List Event) (x : Ext)
    (hB1 : 1 ≤ s.budget) (hB2 : s.budget ≤ 2147483647)
    (hpre : ∀ e ∈ pre, e.isState = false ∧ e.isOperational = false)
    (hpost : ∀ e ∈ post, e.isOperational = false) :
    ((run s (pre ++ Event.notify SysState.LWS_SYSTATE_OPERATIONAL
        SysState.LWS_SYSTATE_OPERATIONAL x :: post)).created : Int) ≤ s.created + s.budget := by
  rw [run_append, run_cons, step_operational]
  have hq := run_quiet pre s hpre
  generalize run s pre = t at hq ⊢
  have hw : wrap32 (t.budget - 1) = t.budget - 1 :=
    wrap32_of_isInt32 (by unfold isInt32; omega)
  have hg := run_guarded post
    { t with budget := wrap32 (t.budget - 1), attempts := streamtype t :: t.attempts }
    (by show 0 ≤ wrap32 (t.budget - 1); omega)
    (by show wrap32 (t.budget - 1) ≤ 2147483647; omega) hpost
  have hc : (State.created
      { t with budget := wrap32 (t.budget - 1), attempts := streamtype t :: t.attempts }) =
        t.created + 1 := rfl
  have hb : (State.budget
      { t with budget := wrap32 (t.budget - 1), attempts := streamtype t :: t.attempts }) =
        wrap32 (t.budget - 1) := rfl
  rw [hc, hb] at hg
  omega

/-- C7, amended: for a startup budget `B ≥ 1` that is a C `int`, take any sequence of
callbacks in which the arrival at OPERATIONAL is notified at most once, no stream state event
comes before it, and no more `LWSSSCS_QOS_ACK_REMOTE` events have been delivered than attempts
have been created. Then at most `B` attempts have been created, `good` is the number of
acknowledgements, `orig_budget` is `B`, and `good` does not exceed `orig_budget`. -/
theorem good_le_orig_budget (cl : Cmdline) (pre post : List Event) (xs : List Ext)
    (hB1 : 1 ≤ cl.budget.getD 1) (hB2 : cl.budget.getD 1 ≤ 2147483647)
    (hpre : ∀ e ∈ pre, e.isState = false ∧ e.isOperational = false)
    (hxs : xs.length ≤ 1)
    (hpost : ∀ e ∈ post, e.isOperational = false)
    (hack : (pre ++ xs.map (Event.notify SysState.LWS_SYSTATE_OPERATIONAL
          SysState.LWS_SYSTATE_OPERATIONAL) ++ post).countP Event.isAck ≤
        (run (startup cl) (pre ++ xs.map (Event.notify SysState.LWS_SYSTATE_OPERATIONAL
          SysState.LWS_SYSTATE_OPERATIONAL) ++ post)).created) :
    ((run (startup cl) (pre ++ xs.map (Event.notify SysState.LWS_SYSTATE_OPERATIONAL
          SysState.LWS_SYSTATE_OPERATIONAL) ++ post)).created : Int) ≤ cl.budget.getD 1 ∧
      (run (startup cl) (pre ++ xs.map (Event.notify SysState.LWS_SYSTATE_OPERATIONAL
          SysState.LWS_SYSTATE_OPERATIONAL) ++ post)).good =
        ((pre ++ xs.map (Event.notify SysState.LWS_SYSTATE_OPERATIONAL
          SysState.LWS_SYSTATE_OPERATIONAL) ++ post).countP Event.isAck : Int) ∧
      (run (startup cl) (pre ++ xs.map (Event.notify SysState.LWS_SYSTATE_OPERATIONAL
          SysState.LWS_SYSTATE_OPERATIONAL) ++ post)).orig_budget = cl.budget.getD 1 ∧
      (run (startup cl) (pre ++ xs.map (Event.notify SysState.LWS_SYSTATE_OPERATIONAL
          SysState.LWS_SYSTATE_OPERATIONAL) ++ post)).good ≤
        (run (startup cl) (pre ++ xs.map (Event.notify SysState.LWS_SYSTATE_OPERATIONAL
          SysState.LWS_SYSTATE_OPERATIONAL) ++ post)).orig_budget := by
  have hf := startup_fields cl
  have hc0 : (startup cl).created = 0 := by
    unfold State.created
    rw [hf.2.2.2.1]
    rfl
  have hcreated : ((run (startup cl) (pre ++ xs.map (Event.notify
      SysState.LWS_SYSTATE_OPERATIONAL SysState.LWS_SYSTATE_OPERATIONAL) ++ post)).created : Int)
      ≤ cl.budget.getD 1 := by
    match xs, hxs with
    | [], _ =>
      have hall : ∀ e ∈ pre ++ post, e.isOperational = false := by
        intro e he
        rcases List.mem_append.mp he with h | h
        · exact (hpre e h).2
        · exact hpost e h
      have hg := run_guarded (pre ++ post) (startup cl) (by rw [hf.2.2.2.2.2.1]; omega)
        (by rw [hf.2.2.2.2.2.1]; omega) hall
      simp only [List.map_nil, List.append_nil]
      rw [hc0, hf.2.2.2.2.2.1] at hg
      omega
    | [x], _ =>
      have hb := created_le_after_arrival (startup cl) pre post x
        (by rw [hf.2.2.2.2.2.1]; omega) (by rw [hf.2.2.2.2.2.1]; omega) hpre hpost
      simp only [List.map_cons, List.map_nil, List.append_assoc, List.singleton_append]
      rw [hc0, hf.2.2.2.2.2.1] at hb
      omega
    | _ :: _ :: _, h => simp at h
  generalize pre ++ xs.map (Event.notify SysState.LWS_SYSTATE_OPERATIONAL
      SysState.LWS_SYSTATE_OPERATIONAL) ++ post = es at hack hcreated ⊢
  have hr := run_good es (startup cl) (by rw [hf.2.2.1]) (by rw [hf.2.2.1]; omega)
  rw [hr.1, hr.2, hf.2.2.1, hf.2.2.2.2.2.2.1]
  refine ⟨hcreated, by omega, rfl, by omega⟩

/-- C7, amended, at a budget of 2 with one attempt acknowledged and one timed out after the
single arrival at OPERATIONAL. -/
theorem good_le_orig_budget_witness :
    (1 : Int) ≤ cmdline_two.budget.getD 1 ∧
      ([ext_ok].length ≤ 1) ∧
      ([Event.notify SysState.LWS_SYSTATE_INITIALIZED SysState.LWS_SYSTATE_INITIALIZED ext_ok] ++
          [ext_ok].map (Event.notify SysState.LWS_SYSTATE_OPERATIONAL
            SysState.LWS_SYSTATE_OPERATIONAL) ++
          (attempt_acked ++ attempt_timed_out)).countP Event.isAck ≤
        (run (startup cmdline_two)
          ([Event.notify SysState.LWS_SYSTATE_INITIALIZED SysState.LWS_SYSTATE_INITIALIZED
              ext_ok] ++
            [ext_ok].map (Event.notify SysState.LWS_SYSTATE_OPERATIONAL
              SysState.LWS_SYSTATE_OPERATIONAL) ++
            (attempt_acked ++ attempt_timed_out))).created ∧
      (run (startup cmdline_two)
          ([Event.notify SysState.LWS_SYSTATE_INITIALIZED SysState.LWS_SYSTATE_INITIALIZED
              ext_ok] ++
            [ext_ok].map (Event.notify SysState.LWS_SYSTATE_OPERATIONAL
              SysState.LWS_SYSTATE_OPERATIONAL) ++
            (attempt_acked ++ attempt_timed_out))).good ≤
        (run (startup cmdline_two)
          ([Event.notify SysState.LWS_SYSTATE_INITIALIZED SysState.LWS_SYSTATE_INITIALIZED
              ext_ok] ++
            [ext_ok].map (Event.notify SysState.LWS_SYSTATE_OPERATIONAL
              SysState.LWS_SYSTATE_OPERATIONAL) ++
            (attempt_acked ++ attempt_timed_out))).orig_budget :=
  ⟨by decide, by decide, by decide,
   (good_le_orig_budget cmdline_two
      [Event.notify SysState.LWS_SYSTATE_INITIALIZED SysState.LWS_SYSTATE_INITIALIZED ext_ok]
      (attempt_acked ++ attempt_timed_out) [ext_ok]
      (by decide) (by decide) (by decide) (by decide) (by decide) (by decide)).2.2.2⟩

/-! ## C8: attempts at a budget of zero -/

/-- C8, on the code: with `--budget 0` the arrival at OPERATIONAL runs `create_ss` with
`budget == 0`; one attempt is created and `budget` becomes -1. -/
theorem create_ss_at_zero_budget :
    (startup cmdline_zero).budget = 0 ∧
      (main cmdline_zero env_one_arrival).waiting.map State.created = some 1 ∧
      (main cmdline_zero env_one_arrival).waiting.map State.budget = some (-1) := by
  decide

/-! ## C9: a further arrival at OPERATIONAL -/

/-- C9, refuted: with `--budget 2 --pass-limit 1`, one arrival at OPERATIONAL leaves one
attempt and a budget of 1; a second arrival creates a second attempt and leaves a budget
of 0. -/
theorem second_arrival_refuted :
    (main cmdline_two env_one_arrival).waiting.map State.created = some 1 ∧
      (main cmdline_two env_one_arrival).waiting.map State.budget = some 1 ∧
      (main cmdline_two env_two_arrivals).waiting.map State.created = some 2 ∧
      (main cmdline_two env_two_arrivals).waiting.map State.budget = some 0 := by
  decide

/-- C9, amended: a notification whose target is OPERATIONAL runs `create_ss` exactly when
`current` is OPERATIONAL too, and does so at every such notification: the budget goes down by
one and one attempt is added each time, so two arrivals in a row create two attempts. -/
theorem arrival_creates_each_time (s : State) (current : SysState) (x y : Ext) :
    step s (Event.notify current SysState.LWS_SYSTATE_OPERATIONAL x) =
        (if current = SysState.LWS_SYSTATE_OPERATIONAL
          then { s with budget := wrap32 (s.budget - 1), attempts := streamtype s :: s.attempts }
          else s) ∧
      (run s [Event.notify SysState.LWS_SYSTATE_OPERATIONAL SysState.LWS_SYSTATE_OPERATIONAL x,
              Event.notify SysState.LWS_SYSTATE_OPERATIONAL SysState.LWS_SYSTATE_OPERATIONAL y]
        ).created = s.created + 2 ∧
      (run s [Event.notify SysState.LWS_SYSTATE_OPERATIONAL SysState.LWS_SYSTATE_OPERATIONAL x,
              Event.notify SysState.LWS_SYSTATE_OPERATIONAL SysState.LWS_SYSTATE_OPERATIONAL y]
        ).budget = wrap32 (wrap32 (s.budget - 1) - 1) := by
  refine ⟨?_, ?_, ?_⟩
  · by_cases hc : current = SysState.LWS_SYSTATE_OPERATIONAL
    · rw [hc, step_operational, if_pos rfl]
    · rw [if_neg hc]
      simp only [step, app_system_state_nf, if_neg hc]
  · rw [run_cons, run_cons, run_nil, step_operational, step_operational]
    rfl
  · rw [run_cons, run_cons, run_nil, step_operational, step_operational]

/-! ## C10: retry exhaustion -/

/-- C10, refuted: with `--budget 2 --pass-limit 1`, after the first attempt is created the
process is running with a budget of 1; `LWSSSCS_ALL_RETRIES_FAILED` for that attempt ends the
run with exit code 1, `interrupted` set, the budget still 1 and no second attempt. -/
theorem retries_failed_refuted :
    (main cmdline_two env_one_arrival).waiting.map State.interrupted = some 0 ∧
      (main cmdline_two env_one_arrival).waiting.map State.budget = some 1 ∧
      (main cmdline_two env_retries_failed).code = some 1 ∧
      (main cmdline_two env_retries_failed).final.map State.interrupted = some 1 ∧
      (main cmdline_two env_retries_failed).final.map State.budget = some 1 ∧
      (main cmdline_two env_retries_failed).final.map State.created = some 1 := by
  decide

/-- C10, amended: whatever the remaining budget, `LWSSSCS_ALL_RETRIES_FAILED` sets
`interrupted` to 1 and `bad` to 2, creates no attempt and leaves the budget as it is; the event
loop of `main` then stops at its next test, with the variables unchanged. -/
theorem retries_failed_stops (s : State) (x : Ext) (n : Int) (rs : List Round) :
    step s (Event.state ConState.LWSSSCS_ALL_RETRIES_FAILED x) =
        { s with interrupted := 1, bad := 2 } ∧
      (myss_state s ConState.LWSSSCS_ALL_RETRIES_FAILED x).2 = SSRet.LWSSSSRET_OK ∧
      service_loop (step s (Event.state ConState.LWSSSCS_ALL_RETRIES_FAILED x)) n rs =
        Sum.inr { s with interrupted := 1, bad := 2 } := by
  refine ⟨rfl, rfl, ?_⟩
  have h : step s (Event.state ConState.LWSSSCS_ALL_RETRIES_FAILED x) =
      { s with interrupted := 1, bad := 2 } := rfl
  rw [h]
  cases rs with
  | nil => simp [service_loop]
  | cons r rs => simp [service_loop]

/-! ## C11: a second terminal signal -/

/-- C11, refuted: with `--budget 3 --pass-limit 1`, the first attempt timing out leaves two
attempts and a budget of 1; `LWSSSCS_DISCONNECTED` for that same stream then creates a third
attempt and leaves a budget of 0. -/
theorem second_terminal_signal_refuted :
    (main cmdline_three env_terminal_once).waiting.map State.created = some 2 ∧
      (main cmdline_three env_terminal_once).waiting.map State.budget = some 1 ∧
      (main cmdline_three env_terminal_twice).waiting.map State.created = some 3 ∧
      (main cmdline_three env_terminal_twice).waiting.map State.budget = some 0 := by
  decide

/-- What `LWSSSCS_DISCONNECTED` and `LWSSSCS_TIMEOUT` do, in any state. -/
theorem step_terminal (s : State) (t : ConState) (x : Ext)
    (ht : t = ConState.LWSSSCS_TIMEOUT ∨ t = ConState.LWSSSCS_DISCONNECTED) :
    (myss_state s t x).2 = SSRet.LWSSSSRET_DESTROY_ME ∧
      (step s (Event.state t x)).bad = (if t = ConState.LWSSSCS_TIMEOUT then 3 else s.bad) ∧
      (s.budget ≠ 0 →
        (step s (Event.state t x)).created = s.created + 1 ∧
        (step s (Event.state t x)).budget = wrap32 (s.budget - 1) ∧
        (step s (Event.state t x)).interrupted = s.interrupted) ∧
      (s.budget = 0 →
        (step s (Event.state t x)).created = s.created ∧
        (step s (Event.state t x)).budget = 0 ∧
        (step s (Event.state t x)).interrupted = 1) := by
  rcases ht with rfl | rfl
  · by_cases hb : s.budget = 0
    · simp [step, myss_state, hb, State.created]
    · simp [step, myss_state, hb, create_ss_fst, State.created]
  · by_cases hb : s.budget = 0
    · simp [step, myss_state, hb, State.created]
    · simp [step, myss_state, hb, create_ss_fst, State.created]

/-- A terminal signal changes nothing exactly when the budget is 0, `interrupted` is already 1
and, for a timeout, `bad` is already 3. -/
theorem step_terminal_fixed (s : State) (t : ConState) (x : Ext)
    (ht : t = ConState.LWSSSCS_TIMEOUT ∨ t = ConState.LWSSSCS_DISCONNECTED) :
    step s (Event.state t x) = s ↔
      (s.budget = 0 ∧ s.interrupted = 1 ∧ (t = ConState.LWSSSCS_TIMEOUT → s.bad = 3)) := by
  have h := step_terminal s t x ht
  constructor
  · intro he
    rw [he] at h
    by_cases hb : s.budget = 0
    · have h1 := h.2.2.2 hb
      refine ⟨hb, h1.2.2, ?_⟩
      intro htt
      have h2 := h.2.1
      rw [if_pos htt] at h2
      exact h2
    · have h1 := (h.2.2.1 hb).1
      omega
  · rintro ⟨hb, hi, hbad⟩
    rcases ht with rfl | rfl
    · have h3 := hbad rfl
      rcases s with ⟨i, b, f1, f2, f3, f4, bu, pg, g, ob, tm, ats, ov, au, su⟩
      simp only at hb hi h3
      subst hb hi h3
      rfl
    · rcases s with ⟨i, b, f1, f2, f3, f4, bu, pg, g, ob, tm, ats, ov, au, su⟩
      simp only at hb hi
      subst hb hi
      rfl

/-- C11, amended: `myss_state` keeps no record of the attempts that have ended, so a second
`LWSSSCS_TIMEOUT` or `LWSSSCS_DISCONNECTED` after a first one is handled like the first. It
returns `LWSSSSRET_DESTROY_ME`; a timeout sets `bad` to 3; with a nonzero budget `create_ss`
runs once more, the budget goes down by one and `interrupted` is left alone; with a budget of 0
no attempt is created and `interrupted` is set. The second signal changes nothing exactly when
the budget is 0, `interrupted` is already 1 and, for a timeout, `bad` is already 3. -/
theorem second_terminal_signal (s : State) (t1 t2 : ConState) (x y : Ext)
    (_h1 : t1 = ConState.LWSSSCS_TIMEOUT ∨ t1 = ConState.LWSSSCS_DISCONNECTED)
    (h2 : t2 = ConState.LWSSSCS_TIMEOUT ∨ t2 = ConState.LWSSSCS_DISCONNECTED) :
    (myss_state (step s (Event.state t1 x)) t2 y).2 = SSRet.LWSSSSRET_DESTROY_ME ∧
      (run s [Event.state t1 x, Event.state t2 y]).bad =
        (if t2 = ConState.LWSSSCS_TIMEOUT then 3 else (step s (Event.state t1 x)).bad) ∧
      ((step s (Event.state t1 x)).budget ≠ 0 →
        (run s [Event.state t1 x, Event.state t2 y]).created =
          (step s (Event.state t1 x)).created + 1 ∧
        (run s [Event.state t1 x, Event.state t2 y]).budget =
          wrap32 ((step s (Event.state t1 x)).budget - 1) ∧
        (run s [Event.state t1 x, Event.state t2 y]).interrupted =
          (step s (Event.state t1 x)).interrupted) ∧
      ((step s (Event.state t1 x)).budget = 0 →
        (run s [Event.state t1 x, Event.state t2 y]).created =
          (step s (Event.state t1 x)).created ∧
        (run s [Event.state t1 x, Event.state t2 y]).budget = 0 ∧
        (run s [Event.state t1 x, Event.state t2 y]).interrupted = 1) ∧
      (run s [Event.state t1 x, Event.state t2 y] = step s (Event.state t1 x) ↔
        ((step s (Event.state t1 x)).budget = 0 ∧
          (step s (Event.state t1 x)).interrupted = 1 ∧
          (t2 = ConState.LWSSSCS_TIMEOUT → (step s (Event.state t1 x)).bad = 3))) := by
  have hr : run s [Event.state t1 x, Event.state t2 y] =
      step (step s (Event.state t1 x)) (Event.state t2 y) := rfl
  rw [hr]
  have h := step_terminal (step s (Event.state t1 x)) t2 y h2
  exact ⟨h.1, h.2.1, h.2.2.1, h.2.2.2, step_terminal_fixed _ t2 y h2⟩

/-- C11, amended, at a budget of 3: a timeout followed by a disconnection creates two
attempts. -/
theorem second_terminal_signal_witness :
    (ConState.LWSSSCS_TIMEOUT = ConState.LWSSSCS_TIMEOUT ∨
        ConState.LWSSSCS_TIMEOUT = ConState.LWSSSCS_DISCONNECTED) ∧
      (ConState.LWSSSCS_DISCONNECTED = ConState.LWSSSCS_TIMEOUT ∨
        ConState.LWSSSCS_DISCONNECTED = ConState.LWSSSCS_DISCONNECTED) ∧
      (step (startup cmdline_three)
        (Event.state ConState.LWSSSCS_TIMEOUT ext_ok)).budget ≠ 0 ∧
      (run (startup cmdline_three)
        [Event.state ConState.LWSSSCS_TIMEOUT ext_ok,
         Event.state ConState.LWSSSCS_DISCONNECTED ext_ok]).created =
        (step (startup cmdline_three)
          (Event.state ConState.LWSSSCS_TIMEOUT ext_ok)).created + 1 :=
  ⟨by decide, by decide, by decide,
   ((second_terminal_signal (startup cmdline_three) ConState.LWSSSCS_TIMEOUT
      ConState.LWSSSCS_DISCONNECTED ext_ok ext_ok (by decide) (by decide)).2.2.1
        (by decide)).1⟩

/-! ## C12: `lws_ss_create` failing -/

/-- C12, refuted: when `lws_ss_create` fails at the arrival at OPERATIONAL with a budget of 2,
one attempt is counted, the budget is 1 and nothing else is created; with a budget of 1 the
budget is 0 and `interrupted` is not set, the process stays in its event loop. When it fails in
the `LWSSSCS_DISCONNECTED` handler with a budget of 3, two attempts are counted, the budget
is 1 and `interrupted` is not set. -/
theorem create_failure_refuted :
    (main cmdline_two env_first_create_fails).waiting.map State.created = some 1 ∧
      (main cmdline_two env_first_create_fails).waiting.map State.budget = some 1 ∧
      (main cmdline_one env_first_create_fails).code = none ∧
      (main cmdline_one env_first_create_fails).waiting.map State.budget = some 0 ∧
      (main cmdline_one env_first_create_fails).waiting.map State.interrupted = some 0 ∧
      (main cmdline_three env_next_create_fails).waiting.map State.created = some 2 ∧
      (main cmdline_three env_next_create_fails).waiting.map State.budget = some 1 ∧
      (main cmdline_three env_next_create_fails).waiting.map State.interrupted = some 0 := by
  decide

/-- The variables a lifecycle notification leaves do not depend on what `lws_ss_create`
answers. -/
theorem notify_ignores_failure (s : State) (current target : SysState) (x : Ext) :
    step s (Event.notify current target x) =
      step s (Event.notify current target { x with ss_create_fails := false }) := by
  cases target <;> cases current <;>
    first
      | rfl
      | (rw [step_operational, step_operational])

/-- The variables a stream state event leaves do not depend on what `lws_ss_create`
answers. -/
theorem state_ignores_failure (s : State) (st : ConState) (x : Ext) :
    step s (Event.state st x) =
      step s (Event.state st { x with ss_create_fails := false }) := by
  cases st with
  | LWSSSCS_DISCONNECTED =>
    simp only [step, myss_state]
    split
    · rw [create_ss_fst, create_ss_fst]
    · rfl
  | LWSSSCS_TIMEOUT =>
    simp only [step, myss_state]
    split
    · rw [create_ss_fst, create_ss_fst]
    · rfl
  | _ => rfl

/-- C12, amended: when `lws_ss_create` fails, `create_ss` returns -1 after having decremented
the budget, and every caller discards that value. Each callback leaves the same variables as
when the creation succeeds: at the arrival at OPERATIONAL, and in the `LWSSSCS_DISCONNECTED`
and `LWSSSCS_TIMEOUT` handlers with a nonzero budget, exactly one attempt is added, the budget
goes down by one and `interrupted` is left alone, whatever budget remains. -/
theorem create_failure_ignored (s : State) (x : Ext) (current target : SysState)
    (st : ConState) (hf : x.ss_create_fails = true) :
    (create_ss s x).2 = -1 ∧
      step s (Event.notify current target x) =
        step s (Event.notify current target { x with ss_create_fails := false }) ∧
      step s (Event.state st x) =
        step s (Event.state st { x with ss_create_fails := false }) ∧
      ((step s (Event.notify SysState.LWS_SYSTATE_OPERATIONAL
            SysState.LWS_SYSTATE_OPERATIONAL x)).created = s.created + 1 ∧
        (step s (Event.notify SysState.LWS_SYSTATE_OPERATIONAL
            SysState.LWS_SYSTATE_OPERATIONAL x)).budget = wrap32 (s.budget - 1) ∧
        (step s (Event.notify SysState.LWS_SYSTATE_OPERATIONAL
            SysState.LWS_SYSTATE_OPERATIONAL x)).interrupted = s.interrupted) ∧
      (s.budget ≠ 0 →
        (step s (Event.state ConState.LWSSSCS_DISCONNECTED x)).created = s.created + 1 ∧
        (step s (Event.state ConState.LWSSSCS_DISCONNECTED x)).budget =
          wrap32 (s.budget - 1) ∧
        (step s (Event.state ConState.LWSSSCS_DISCONNECTED x)).interrupted = s.interrupted) ∧
      (s.budget ≠ 0 →
        (step s (Event.state ConState.LWSSSCS_TIMEOUT x)).created = s.created + 1 ∧
        (step s (Event.state ConState.LWSSSCS_TIMEOUT x)).budget = wrap32 (s.budget - 1) ∧
        (step s (Event.state ConState.LWSSSCS_TIMEOUT x)).interrupted = s.interrupted) := by
  refine ⟨?_, notify_ignores_failure s current target x, state_ignores_failure s st x,
    ?_, ?_, ?_⟩
  · unfold create_ss
    rw [hf]
    rfl
  · rw [step_operational]
    exact ⟨rfl, rfl, rfl⟩
  · exact (step_terminal s ConState.LWSSSCS_DISCONNECTED x (Or.inr rfl)).2.2.1
  · exact (step_terminal s ConState.LWSSSCS_TIMEOUT x (Or.inl rfl)).2.2.1

/-- C12, amended, at a budget of 2 with `lws_ss_create` failing at the arrival at
OPERATIONAL: `create_ss` returns -1 and `interrupted` stays 0. -/
theorem create_failure_ignored_witness :
    ext_create_fails.ss_create_fails = true ∧
      (create_ss (startup cmdline_two) ext_create_fails).2 = -1 ∧
      (step (startup cmdline_two)
        (Event.notify SysState.LWS_SYSTATE_OPERATIONAL SysState.LWS_SYSTATE_OPERATIONAL
          ext_create_fails)).interrupted = (startup cmdline_two).interrupted :=
  ⟨by decide,
   (create_failure_ignored (startup cmdline_two) ext_create_fails
      SysState.LWS_SYSTATE_OPERATIONAL SysState.LWS_SYSTATE_OPERATIONAL
      ConState.LWSSSCS_DISCONNECTED (by decide)).1,
   (create_failure_ignored (startup cmdline_two) ext_create_fails
      SysState.LWS_SYSTATE_OPERATIONAL SysState.LWS_SYSTATE_OPERATIONAL
      ConState.LWSSSCS_DISCONNECTED (by decide)).2.2.2.1.2.2⟩

end LwsStress
